import Mathlib

/-!
Verification of the HDP 2.0.6 stack advisor
(`ambari-server/src/main/resources/stacks/HDP/2.0.6/services/stack_advisor.py`).

The Python module computes recommended configuration values from a cluster's
hardware inventory and service topology and validates user-supplied values.
This file gives a shallow embedding of the functions the verified claims
touch, translated from the source:

* configuration trees are association lists `configType -> properties`,
  where `properties` is an association list `key -> string value`
  (Python dict assignment is modelled by `setKV`, which overwrites in place);
* Python exceptions (KeyError / TypeError / ValueError) are modelled by
  `Option`, with `none` standing for a raised exception;
* Python 2 ints are `Int`/`Nat`; Python floats are embedded as exact
  fractions (`Frac`, an unreduced numerator/denominator pair), which agrees
  with the source's float arithmetic on everything the theorems below state;
* string scanning (the `-Xmx` regular expressions, substring tests) is
  implemented directly over `List Char` with the same matching semantics.
-/

/-! ## Generic string-keyed maps (Python dicts holding strings) -/

/-- Dict assignment `d[k] = v`: overwrite the binding in place if the key is
present, otherwise append it (Python dicts keep insertion order). -/
def setKV {β : Type} : List (String × β) → String → β → List (String × β)
  | [], k, v => [(k, v)]
  | (k0, v0) :: rest, k, v =>
      if k0 = k then (k, v) :: rest else (k0, v0) :: setKV rest k v

/-- A `properties` dict: property name to string value. -/
abbrev PropMap := List (String × String)

/-- A configuration tree: configType to its `properties` dict.  The source
also stores `property_attributes` next to `properties`; no verified claim
touches attributes, so only the `properties` component is modelled. -/
abbrev Config := List (String × PropMap)

/-- Write `config[configType]["properties"][key] = value`, creating the
configType entry and its properties dict when missing (source lines 103-106
followed by the assignment in `appendProperty`). -/
def setProp (config : Config) (configType key value : String) : Config :=
  match config with
  | [] => [(configType, [(key, value)])]
  | (ct, props) :: rest =>
      if ct = configType then (ct, setKV props key value) :: rest
      else (ct, props) :: setProp rest configType key value

/-- Read `config[configType]["properties"].get(key)`. -/
def lookupProp (config : Config) (configType key : String) : Option String :=
  (config.lookup configType).bind (fun props => props.lookup key)

/-! ## Python scalar values written through the merger -/

/-- A Python value passed to the property writer: the source passes ints,
strings and float literals.  A float literal is embedded as the exact
decimal fraction it denotes. -/
inductive PyVal where
  | pint (i : Int)
  | pstr (s : String)
  | pfloat (num : Int) (den : Nat)
deriving DecidableEq

/-- Decimal digits of `num/den` (`num < den`), one digit per step. -/
def decimalDigits (num den : Nat) : Nat → String
  | 0 => ""
  | fuel + 1 =>
      if num = 0 then ""
      else toString ((num * 10) / den) ++ decimalDigits ((num * 10) % den) den fuel

/-- Python `str(value)`.  For floats only nonnegative terminating decimals
occur in the source (`0.3`, `0.35`, `0.25`, ...), and Python 2.7 `str`
renders those literals back exactly. -/
def pyStr : PyVal → String
  | .pint i => toString i
  | .pstr s => s
  | .pfloat num den =>
      if den ≤ 1 then toString num ++ ".0"
      else toString (num.fdiv (den : Int)) ++ "." ++
        decimalDigits (num.natAbs % den) den 30

/-! ## putProperty (source lines 93-119): the config-override merger -/

/-- One entry of the request's `changed-configurations` list. -/
structure ChangedConfig where
  ctype : String
  name : String
deriving DecidableEq

/-- Source lines 115-119: membership of `(configType, propertyName)` in the
changed-configurations list. -/
def isPropertyInChangedConfigs (configType propertyName : String)
    (changedConfigs : List ChangedConfig) : Bool :=
  changedConfigs.any (fun c => c.ctype = configType && c.name = propertyName)

/-- The property writer returned by `putProperty` (source lines 107-113).
`userConfigs` is `services['configurations']` (the live tree) and
`changedConfigs` the request's changed-configurations list.  If the key is
listed as changed, the live value `userConfigs[configType]['properties'][key]`
is written — a missing live entry raises KeyError, modelled as `none`.
Otherwise `str(value)` is written. -/
def appendProperty (userConfigs : Config) (changedConfigs : List ChangedConfig)
    (configType : String) (config : Config) (key : String) (value : PyVal) :
    Option Config :=
  if isPropertyInChangedConfigs configType key changedConfigs then
    match lookupProp userConfigs configType key with
    | some liveValue => some (setProp config configType key liveValue)
    | none => none
  else
    some (setProp config configType key (pyStr value))

/-! ## String scanning helpers (List Char level) -/

/-- `leadMatch pat s`: `s` starts with the characters `pat`. -/
def leadMatch : List Char → List Char → Bool
  | [], _ => true
  | _ :: _, [] => false
  | a :: as, b :: bs => a == b && leadMatch as bs

/-- `subMatch pat s`: some suffix of `s` starts with `pat`. -/
def subMatch (pat : List Char) : List Char → Bool
  | [] => leadMatch pat []
  | c :: rest => leadMatch pat (c :: rest) || subMatch pat rest

/-- Python `pat in s` (substring containment). -/
def strContainsSub (s pat : String) : Bool :=
  subMatch pat.toList s.toList

/-- Python `s.startswith(pat)`. -/
def strStartsWith (s pat : String) : Bool :=
  leadMatch pat.toList s.toList

/-- Numeric value of a list of decimal digit characters. -/
def digitsVal (cs : List Char) : Nat :=
  cs.foldl (fun n c => 10 * n + (c.toNat - 48)) 0

/-- Python `int(s)` on a plain decimal string: optional sign then one or
more digits; anything else raises ValueError (`none`). -/
def pyInt? (s : String) : Option Int :=
  match s.toList with
  | [] => none
  | '-' :: ds =>
      if (!ds.isEmpty) && ds.all Char.isDigit then some (-(digitsVal ds : Int)) else none
  | ds =>
      if ds.all Char.isDigit then some ((digitsVal ds : Int)) else none

/-- Python `s.split(sep)` for a single-character separator. -/
def splitOnChar (sep : Char) : List Char → List (List Char)
  | [] => [[]]
  | c :: rest =>
      let r := splitOnChar sep rest
      if c == sep then [] :: r
      else
        match r with
        | [] => [[c]]
        | g :: gs => (c :: g) :: gs

/-! ## Topology data model (request payload shapes) -/

/-- One record of a host's `disk_info` list.  The source reads only the
`mountpoint`, `type` (here `ftype`) and `available` fields. -/
structure DiskEntry where
  mountpoint : String
  ftype : String
  available : String
deriving DecidableEq

/-- One entry of `hosts["items"]` (the `Hosts` sub-dict). -/
structure Host where
  host_name : String
  cpu_count : Nat
  total_mem : Nat
  disk_info : List DiskEntry
deriving DecidableEq

/-- One component's `StackServiceComponents` record. -/
structure StackServiceComponent where
  component_name : String
  display_name : String
  cardinality : Option String
  hostnames : Option (List String)
deriving DecidableEq

/-- One entry of `services["services"]`. -/
structure ServiceEntry where
  service_name : String
  components : List StackServiceComponent
deriving DecidableEq

/-! ## getComponentLayoutValidations (source lines 30-81) -/

/-- A layout validation finding: the dicts appended at source lines 72 and
79 (`type`, `level`, `message`, plus `component-name` or `host`). -/
structure ValidationItem where
  vtype : String
  level : String
  message : String
  componentName : Option String := none
  host : Option String := none
deriving DecidableEq

/-- The cardinality comparison of source lines 52-69 for one component:
given the cluster host count, the component's assigned-host count, the
cardinality string and the display name, produce the mismatch message.
Outer `none` models a raised ValueError/IndexError from `int()`/indexing;
inner `none` means the cardinality is satisfied (no message). -/
def cardinalityMessage (hostsCount componentHostsCount : Nat)
    (cardinality displayName : String) : Option (Option String) :=
  if cardinality.toList.contains '+' then
    match pyInt? (String.mk cardinality.toList.dropLast) with
    | none => none
    | some hostsMin =>
        some (if (componentHostsCount : Int) < hostsMin then
          some ("At least " ++ toString hostsMin ++ " " ++ displayName ++
                " components should be installed in cluster.")
        else none)
  else if cardinality.toList.contains '-' then
    match (splitOnChar '-' cardinality.toList).map String.mk with
    | s0 :: s1 :: _ =>
        match pyInt? s0, pyInt? s1 with
        | some hostsMin, some hostsMax =>
            some (if (componentHostsCount : Int) > hostsMax ∨
                     (componentHostsCount : Int) < hostsMin then
              some ("Between " ++ toString hostsMin ++ " and " ++ toString hostsMax ++
                    " " ++ displayName ++ " components should be installed in cluster.")
            else none)
        | _, _ => none
    | _ => none
  else if cardinality = "ALL" then
    some (if componentHostsCount ≠ hostsCount then
      some (displayName ++ " component should be installed on all hosts in cluster.")
    else none)
  else
    match pyInt? cardinality with
    | none => none
    | some n =>
        some (if (componentHostsCount : Int) ≠ n then
          some ("Exactly " ++ toString n ++ " " ++ displayName ++
                " components should be installed in cluster.")
        else none)

/-- One pass of the cardinality loop body (source lines 44-72) for a single
component: skipped when `cardinality` is null, otherwise the finding (if
any) built from `cardinalityMessage`. -/
def componentCardinalityItem (hostsCount : Nat) (c : StackServiceComponent) :
    Option (Option ValidationItem) :=
  match c.cardinality with
  | none => some none
  | some card =>
      let cnt := (c.hostnames.getD []).length
      match cardinalityMessage hostsCount cnt card c.display_name with
      | none => none
      | some none => some none
      | some (some msg) =>
          some (some ⟨"host-component", "ERROR", msg, some c.component_name, none⟩)

/-- Source line 1216: the fixed list of components that do not make a host
"used". -/
def getNotValuableComponents : List String :=
  ["JOURNALNODE", "ZKFC", "GANGLIA_MONITOR"]

/-- Modelled from the spec: `isComponentNotValuable` is defined in the
parent class `DefaultStackAdvisor`, which is not among this repository's
sources.  The spec describes it as membership in "a fixed exclusion list of
infrastructure-only roles"; the fixed list is `getNotValuableComponents`
(source line 1216). -/
def isComponentNotValuable (c : StackServiceComponent) : Bool :=
  getNotValuableComponents.contains c.component_name

/-- Source lines 30-81: the component-layout validator.  Emits one ERROR
per cardinality mismatch, then one ERROR per host that runs no valuable
component.  `none` models a raised exception (bad cardinality string, or
flattening a null `hostnames` of a valuable component at line 76). -/
def getComponentLayoutValidations (services : List ServiceEntry)
    (hosts : List Host) : Option (List ValidationItem) :=
  let hostsList := hosts.map (fun h => h.host_name)
  let hostsCount := hostsList.length
  let componentsList := (services.map (fun s => s.components)).flatten
  match componentsList.mapM (componentCardinalityItem hostsCount) with
  | none => none
  | some cardOpts =>
      let items := cardOpts.filterMap id
      match (componentsList.filter (fun c => ! isComponentNotValuable c)).mapM
              (fun c => c.hostnames) with
      | none => none
      | some usedLists =>
          let usedHostsList := usedLists.flatten
          let nonUsed := hostsList.filter (fun h => ! usedHostsList.contains h)
          some (items ++ nonUsed.map
            (fun h => ⟨"host-component", "ERROR", "Host is not used", none, some h⟩))

/-- Example layout: two hosts, one DATANODE component with cardinality "3+"
assigned to both hosts. -/
def exLayoutHosts : List Host :=
  [⟨"h1", 4, 8388608, []⟩, ⟨"h2", 4, 8388608, []⟩]

/-- Example layout services for `exLayoutHosts`. -/
def exLayoutServices : List ServiceEntry :=
  [⟨"HDFS", [⟨"DATANODE", "DATANODE", some "3+", some ["h1", "h2"]⟩]⟩]

/-- Example layout: five hosts, an "ALL"-cardinality client on four of
them, and a second (null-cardinality) component covering the fifth host. -/
def exAllHosts : List Host :=
  [⟨"h1", 1, 1, []⟩, ⟨"h2", 1, 1, []⟩, ⟨"h3", 1, 1, []⟩,
   ⟨"h4", 1, 1, []⟩, ⟨"h5", 1, 1, []⟩]

/-- Example layout services for `exAllHosts`. -/
def exAllServices : List ServiceEntry :=
  [⟨"HDFS", [⟨"HDFS_CLIENT", "HDFS_CLIENT", some "ALL", some ["h1", "h2", "h3", "h4"]⟩,
             ⟨"NAMENODE", "NameNode", none, some ["h5"]⟩]⟩]

/-! ## Exact fractions standing for Python floats -/

/-- An unreduced fraction `num / den`.  Stands for the Python float values
flowing through the cluster-summary arithmetic; every denominator built by
the embedding is positive. -/
structure Frac where
  num : Int
  den : Int
deriving DecidableEq

/-- An integer as a fraction. -/
def Frac.ofInt (i : Int) : Frac := ⟨i, 1⟩

/-- `i < x` for a fraction with positive denominator (Python `x > i`). -/
def Frac.gtInt (x : Frac) (i : Int) : Bool := i * x.den < x.num

/-- `x < y` for fractions with positive denominators. -/
def Frac.ltFrac (x y : Frac) : Bool := x.num * y.den < y.num * x.den

/-- Python `max(x, y)`: `y` when `x < y`, else `x`. -/
def Frac.max2 (x y : Frac) : Frac := if Frac.ltFrac x y then y else x

/-- Python `abs` on a float. -/
def Frac.pabs (x : Frac) : Frac := ⟨|x.num|, |x.den|⟩

/-- `int(x)` for a nonnegative fraction with positive denominator
(truncation towards zero coincides with the floor there). -/
def Frac.floorPos (x : Frac) : Int := x.num.fdiv x.den

/-- Ceiling of `a / b` for `b > 0`. -/
def ceilDiv (a b : Int) : Int := -((-a).fdiv b)

/-! ## getConfigurationClusterSummary (source lines 632-719) -/

/-- Source lines 586-594: the hosts running `componentName` of
`serviceName`.  `none` models the TypeError raised at line 590 when the
first matching component's `hostnames` is null (`len(None)`). -/
def getHostsWithComponent (serviceName componentName : String)
    (services : List ServiceEntry) (hosts : List Host) : Option (List Host) :=
  if serviceName ∈ services.map (fun s => s.service_name) then
    match services.filter (fun s => s.service_name == serviceName) with
    | [] => some []
    | service :: _ =>
        match service.components.filter (fun c => c.component_name == componentName) with
        | [] => some []
        | comp :: _ =>
            match comp.hostnames with
            | none => none
            | some componentHostnames =>
                if componentHostnames.length > 0 then
                  some (hosts.filter (fun h => componentHostnames.contains h.host_name))
                else some []
  else some []

/-- The cluster resource profile dict built by
`getConfigurationClusterSummary`. -/
structure ClusterProfile where
  cpu : Int
  disk : Int
  ram : Int
  hBaseInstalled : Bool
  components : List StackServiceComponent
  referenceHost : Option Host
  referenceNodeManagerHost : Option Host
  reservedRam : Int
  hbaseRam : Int
  minContainerSize : Int
  totalAvailableRam : Int
  containers : Int
  ramPerContainer : Frac
  mapMemory : Int
  reduceMemory : Frac
  amMemory : Frac
deriving DecidableEq

/-- Source lines 663-675: the `(os, hbase)` reserved-memory table, in GB. -/
def ramRecommendations : List (Int × Int) :=
  [(1, 1), (2, 1), (2, 2), (4, 4), (6, 8), (8, 8), (8, 8), (12, 16),
   (24, 24), (32, 32), (64, 64)]

/-- Source lines 676-688: the boolean-keyed bucket index.  The eleven
range conditions are mutually exclusive and exhaustive, so the
dict-of-booleans lookup equals this ordered range test. -/
def ramBucketIndex (ram : Int) : Nat :=
  if ram ≤ 4 then 0
  else if ram ≤ 8 then 1
  else if ram ≤ 16 then 2
  else if ram ≤ 24 then 3
  else if ram ≤ 48 then 4
  else if ram ≤ 64 then 5
  else if ram ≤ 72 then 6
  else if ram ≤ 96 then 7
  else if ram ≤ 128 then 8
  else if ram ≤ 256 then 9
  else 10

/-- Source lines 692-697: the minContainerSize bucket, in MB. -/
def minContainerSizeOf (ram : Int) : Int :=
  if ram ≤ 4 then 256
  else if ram ≤ 8 then 512
  else if ram ≤ 24 then 1024
  else 2048

/-- Source lines 663-719: derive the profile numbers from the reference
host's cpu/disk/ram and the installed-service flag.  Embedding notes:
`round()` at line 704 is applied to an integer-valued quantity (2*cpu,
`ceil`, and integer floor-division all yield integers), so it is the
identity; the float product `1.8 * disk` is embedded as the exact
`ceil(9*disk / 5)`; `int(x)` on the nonnegative per-container values is
the floor. -/
def buildClusterProfile (hBaseInstalled : Bool)
    (referenceHost referenceNodeManagerHost : Option Host)
    (cpu disk ram : Int) (components : List StackServiceComponent) :
    ClusterProfile :=
  let osHb := ramRecommendations.getD (ramBucketIndex ram) (0, 0)
  let reservedRam := osHb.1
  let hbaseRam := osHb.2
  let minContainerSize := minContainerSizeOf ram
  let tar0 := ram - reservedRam
  let tar1 := if hBaseInstalled then tar0 - hbaseRam else tar0
  let totalAvailableRam := max 512 (tar1 * 1024)
  let containers := max 3 (min (2 * cpu)
    (min (ceilDiv (9 * disk) 5) (totalAvailableRam.fdiv minContainerSize)))
  let rpc0 := Frac.pabs ⟨totalAvailableRam, containers⟩
  let rpc := if Frac.gtInt rpc0 1024 then
      Frac.ofInt ((rpc0.num.fdiv (512 * rpc0.den)) * 512)
    else rpc0
  let mapMemory := Frac.floorPos rpc
  { cpu := cpu, disk := disk, ram := ram, hBaseInstalled := hBaseInstalled,
    components := components, referenceHost := referenceHost,
    referenceNodeManagerHost := referenceNodeManagerHost,
    reservedRam := reservedRam, hbaseRam := hbaseRam,
    minContainerSize := minContainerSize,
    totalAvailableRam := totalAvailableRam, containers := containers,
    ramPerContainer := rpc, mapMemory := mapMemory, reduceMemory := rpc,
    amMemory := Frac.max2 (Frac.ofInt mapMemory) rpc }

/-- Source lines 632-719: build the cluster profile.  The reference host is
the NodeManager host with least memory when one exists (first-wins scan of
lines 649-653), else the first host; with no hosts the cpu/disk/ram
defaults of 0 stay.  `ram` is `int(total_mem / (1024*1024))` (line 661). -/
def getConfigurationClusterSummary (servicesList : List String)
    (hosts : List Host) (components : List StackServiceComponent)
    (services : List ServiceEntry) : Option ClusterProfile :=
  let hBaseInstalled := servicesList.contains "HBASE"
  match hosts with
  | [] => some (buildClusterProfile hBaseInstalled none none 0 0 0 components)
  | h0 :: _ =>
      match getHostsWithComponent "YARN" "NODEMANAGER" services hosts with
      | none => none
      | some [] =>
          some (buildClusterProfile hBaseInstalled (some h0) none
            (h0.cpu_count : Int) (h0.disk_info.length : Int)
            ((h0.total_mem / (1024 * 1024) : Nat) : Int) components)
      | some (nm0 :: nmRest) =>
          let nmHost := (nm0 :: nmRest).foldl
            (fun acc h => if h.total_mem < acc.total_mem then h else acc) nm0
          some (buildClusterProfile hBaseInstalled (some nmHost) (some nmHost)
            (nmHost.cpu_count : Int) (nmHost.disk_info.length : Int)
            ((nmHost.total_mem / (1024 * 1024) : Nat) : Int) components)

/-- Example inventory host: 4 cores, 8 GiB of memory (`total_mem` in KB),
two disks. -/
def exSummaryHost : Host :=
  ⟨"h1", 4, 8388608, [⟨"/", "ext4", "500000"⟩, ⟨"/data", "ext4", "1000000"⟩]⟩

/-- The profile `getConfigurationClusterSummary [] [exSummaryHost] [] []`
evaluates to. -/
def exSummaryProfile : ClusterProfile :=
  { cpu := 4, disk := 2, ram := 8, hBaseInstalled := false,
    components := [], referenceHost := some exSummaryHost,
    referenceNodeManagerHost := none,
    reservedRam := 2, hbaseRam := 1, minContainerSize := 512,
    totalAvailableRam := 6144, containers := 4,
    ramPerContainer := ⟨1536, 1⟩, mapMemory := 1536,
    reduceMemory := ⟨1536, 1⟩, amMemory := ⟨1536, 1⟩ }

/-! ## Validation items and the numeric below-recommended validator -/

/-- A severity/message pair as built by `getWarnItem` / `getErrorItem`
(source lines 1025-1029). -/
structure Item where
  level : String
  message : String
deriving DecidableEq

/-- Source line 1026. -/
def getWarnItem (message : String) : Item := ⟨"WARN", message⟩

/-- Source line 1029. -/
def getErrorItem (message : String) : Item := ⟨"ERROR", message⟩

/-- Source lines 1310-1314: strip every non-digit character and parse the
remainder as an int; an empty digit string raises ValueError, caught to
`None`. -/
def to_number (s : String) : Option Int :=
  let ds := s.toList.filter Char.isDigit
  if ds.isEmpty then none else some ((digitsVal ds : Nat) : Int)

/-- Source lines 1091-1107: the numeric below-recommended validator.
A property absent from the recommended defaults is ignored; an absent live
value is an ERROR; a non-numeric live value is an ERROR; a live value
below the recommended default is a WARN. -/
def validatorLessThenDefaultValue (properties recommendedDefaults : PropMap)
    (propertyName : String) : Option Item :=
  match recommendedDefaults.lookup propertyName with
  | none => none
  | some recommendedRaw =>
      match properties.lookup propertyName with
      | none => some (getErrorItem "Value should be set")
      | some valueRaw =>
          match to_number valueRaw with
          | none => some (getErrorItem "Value should be integer")
          | some value =>
              match to_number recommendedRaw with
              | none => none
              | some defaultValue =>
                  if value < defaultValue then
                    some (getWarnItem
                      ("Value is less than the recommended default of " ++
                       toString defaultValue))
                  else none

/-- A finding record produced by `toConfigurationValidationProblems`
(source lines 1015-1023). -/
structure ConfigProblem where
  ptype : String
  level : String
  message : String
  configType : String
  configName : String
deriving DecidableEq

/-- Source lines 1015-1023: keep the non-None items, tagging each with the
site name. -/
def toConfigurationValidationProblems
    (validationProblems : List (String × Option Item)) (siteName : String) :
    List ConfigProblem :=
  validationProblems.filterMap (fun p =>
    p.2.map (fun item => ⟨"configuration", item.level, item.message, siteName, p.1⟩))

/-- Source lines 1207-1211: the hadoop-env validator — three independent
below-recommended checks over one properties dict. -/
def validateHDFSConfigurationsEnv (properties recommendedDefaults : PropMap) :
    List ConfigProblem :=
  toConfigurationValidationProblems
    [("namenode_heapsize",
        validatorLessThenDefaultValue properties recommendedDefaults "namenode_heapsize"),
     ("namenode_opt_newsize",
        validatorLessThenDefaultValue properties recommendedDefaults "namenode_opt_newsize"),
     ("namenode_opt_maxnewsize",
        validatorLessThenDefaultValue properties recommendedDefaults "namenode_opt_maxnewsize")]
    "hadoop-env"

/-! ## Heap-flag (-Xmx) validation (source lines 1162-1180, 1316-1345) -/

/-- True when a match of the pattern `-Xmx(\d+)(b|k|m|g|p|t|B|K|M|G|P|T)?`
begins exactly at the head of the character list. -/
def xmxMatchAt : List Char → Bool
  | '-' :: 'X' :: 'm' :: 'x' :: d :: _ => d.isDigit
  | _ => false

/-- Number of positions where a `-Xmx` match starts.  Matches of this
pattern cannot overlap (no second '-' occurs inside a match), so this is
the number of non-overlapping matches `re.findall` returns. -/
def countXmx : List Char → Nat
  | [] => 0
  | c :: rest => (if xmxMatchAt (c :: rest) then 1 else 0) + countXmx rest

/-- Source lines 1316-1319: the value holds exactly one `-Xmx<digits><unit?>`
occurrence. -/
def checkXmxValueFormat (value : String) : Bool :=
  countXmx value.toList == 1

/-- Scanner behind `getXmxSize`: digits of the first `-Xmx(\d+)(.?)` match
followed by the lowercased next character (the regex `.` does not match a
newline, leaving the second group empty there). -/
def getXmxSizeChars : List Char → Option String
  | [] => none
  | c :: rest =>
      if xmxMatchAt (c :: rest) then
        let after := rest.drop 3
        let ds := after.takeWhile Char.isDigit
        let tail := after.dropWhile Char.isDigit
        some (String.mk (ds ++ (match tail with
          | [] => []
          | t :: _ => if t = '\n' then [] else [t.toLower])))
      else getXmxSizeChars rest

/-- Source lines 1321-1327: number + lowercased size-formatter character of
the first `-Xmx` occurrence.  `none` models the IndexError raised when the
value holds no `-Xmx` match. -/
def getXmxSize (value : String) : Option String :=
  getXmxSizeChars value.toList

/-- Source lines 1329-1345: normalize a size string to bytes.  The value is
lowercased, the unit defaults to `b` when the last character is a digit or
a space, and the boolean-keyed multiplier dict raises KeyError on an
unknown suffix (none of its keys is true); a digitless string makes
`to_number` return None and the multiplication raise TypeError — both
modelled as `none`. -/
def formatXmxSizeToBytes (value : String) : Option Int :=
  let lowered := value.toList.map Char.toLower
  if lowered.isEmpty then some 0
  else
    let lastChar := lowered.getLast?.getD ' '
    let modifier := if lastChar = ' ' ∨ lastChar.isDigit then 'b' else lastChar
    let m : Option Int :=
      if modifier = 'b' then some 1
      else if modifier = 'k' then some 1024
      else if modifier = 'm' then some (1024 * 1024)
      else if modifier = 'g' then some (1024 * 1024 * 1024)
      else if modifier = 't' then some (1024 * 1024 * 1024 * 1024)
      else if modifier = 'p' then some (1024 * 1024 * 1024 * 1024 * 1024)
      else none
    match m, to_number (String.mk lowered) with
    | some mult, some n => some (n * mult)
    | _, _ => none

/-- Source lines 1162-1180: the heap-flag validator.  The outer `none`
models a raised exception (`recommendedDefaults[propertyName]` KeyError, or
a size whose unit the byte-normalizer rejects); the inner `none` means no
finding.  Values stored in the maps are strings, so the `defaultValue is
None` test of line 1167 cannot fire in this model. -/
def validateXmxValue (properties recommendedDefaults : PropMap)
    (propertyName : String) : Option (Option Item) :=
  match properties.lookup propertyName with
  | none => some (some (getErrorItem "Value should be set"))
  | some value =>
      match recommendedDefaults.lookup propertyName with
      | none => none
      | some defaultValue =>
          if !(checkXmxValueFormat value) && checkXmxValueFormat defaultValue then
            some (some (getErrorItem "Invalid value format"))
          else if !(checkXmxValueFormat defaultValue) then
            some none
          else
            match getXmxSize value with
            | none => none
            | some valueXmx =>
                match getXmxSize defaultValue with
                | none => none
                | some defaultValueXmx =>
                    match formatXmxSizeToBytes valueXmx,
                          formatXmxSizeToBytes defaultValueXmx with
                    | some valueInt, some defaultValueInt =>
                        some (if valueInt < defaultValueInt then
                          some (getWarnItem
                            ("Value is less than the recommended default of -Xmx" ++
                             defaultValueXmx))
                        else none)
                    | _, _ => none

/-! ## getPreferredMountPoints (source lines 1031-1049) -/

/-- The exclusion test of source lines 1041-1044: root/home/docker-specific
mounts and /tmp, the /boot and /mnt prefixes, virtual filesystem types,
and mounts whose available space is the string "0". -/
def undesirableMountPoint (m : DiskEntry) : Bool :=
  ["/", "/home", "/etc/resolv.conf", "/etc/hosts", "/etc/hostname", "/tmp"].contains
      m.mountpoint
  || strStartsWith m.mountpoint "/boot" || strStartsWith m.mountpoint "/mnt"
  || ["devtmpfs", "tmpfs", "vboxsf", "CDFS"].contains m.ftype
  || m.available == "0"

/-- The `mountPointsDict` of source lines 1039-1045: mountpoint to
`to_number(available)`, built in `disk_info` order with dict-overwrite
semantics. -/
def buildMountPointsDict (disk_info : List DiskEntry) : List (String × Option Int) :=
  disk_info.foldl
    (fun d m => if undesirableMountPoint m then d
                else setKV d m.mountpoint (to_number m.available)) []

/-- `a` strictly greater than `b`, where `none` is Python 2's `None` and
compares below every int. -/
def optValGt : Option Int → Option Int → Bool
  | some a, some b => b < a
  | some _, none => true
  | none, _ => false

/-- Insert one dict entry into a list sorted by value descending, after any
earlier entry with an equal or greater value (one stable descending
insertion step). -/
def insDesc (x : String × Option Int) :
    List (String × Option Int) → List (String × Option Int)
  | [] => [x]
  | h :: t => if optValGt x.2 h.2 then x :: h :: t else h :: insDesc x t

/-- `sorted(mountPointsDict, key=mountPointsDict.get, reverse=True)` of
source line 1047: entries ordered by available space descending (a stable
insertion sort; the order among equal values is not fixed by the source
either, since the dict's iteration order feeds a stable sort). -/
def sortByValueDesc (l : List (String × Option Int)) : List (String × Option Int) :=
  l.foldl (fun acc x => insDesc x acc) []

/-- Source lines 1031-1049: the preferred mount points — the non-excluded
mounts sorted by available space descending, then "/" appended as the
fallback. -/
def getPreferredMountPoints (disk_info : List DiskEntry) : List String :=
  (sortByValueDesc (buildMountPointsDict disk_info)).map Prod.fst ++ ["/"]

/-- Descending order between adjacent dict entries: the later value is not
greater than the earlier one. -/
def descOrder (a b : String × Option Int) : Prop := optValGt b.2 a.2 = false

/-- Every ranked mount point comes from a disk_info record that passed the
exclusion test. -/
def keptMountComesFromDisk (disk_info : List DiskEntry) (mp : String) : Bool :=
  disk_info.any (fun m => m.mountpoint == mp && ! undesirableMountPoint m)

/-- The mount layout of the claim's example: root 100 GB, /data 500 GB,
/boot 50 GB (available space in KB). -/
def exMountDisks : List DiskEntry :=
  [⟨"/", "ext4", "104857600"⟩, ⟨"/data", "ext4", "524288000"⟩,
   ⟨"/boot", "ext4", "52428800"⟩]

/-! ## recommendAmsConfigurations storage tiering (source lines 442-511) -/

/-- Source lines 483-487: the unconditional storage-engine defaults written
before the tier selection (block cache, memstore flush/limits, aggregator
ttl). -/
def amsStorageBaseWrites (userConfigs : Config)
    (changedConfigs : List ChangedConfig) (config : Config) : Option Config := do
  let c ← appendProperty userConfigs changedConfigs "ams-hbase-site" config
    "hfile.block.cache.size" (.pfloat 3 10)
  let c ← appendProperty userConfigs changedConfigs "ams-hbase-site" c
    "hbase.hregion.memstore.flush.size" (.pint 134217728)
  let c ← appendProperty userConfigs changedConfigs "ams-hbase-site" c
    "hbase.regionserver.global.memstore.upperLimit" (.pfloat 35 100)
  let c ← appendProperty userConfigs changedConfigs "ams-hbase-site" c
    "hbase.regionserver.global.memstore.lowerLimit" (.pfloat 3 10)
  appendProperty userConfigs changedConfigs "ams-site" c
    "timeline.metrics.host.aggregator.ttl" (.pint 86400)

/-- Source lines 492-511: the single-collector tier selection keyed by the
total sink count — the full tuning bundle at 2000 or more sinks, a reduced
bundle at 500 or more, and only the metadata-cache default below 500. -/
def amsSingleCollectorTierWrites (userConfigs : Config)
    (changedConfigs : List ChangedConfig) (total_sinks_count : Nat)
    (config : Config) : Option Config :=
  if total_sinks_count ≥ 2000 then do
    let c ← appendProperty userConfigs changedConfigs "ams-hbase-site" config
      "hbase.regionserver.handler.count" (.pint 60)
    let c ← appendProperty userConfigs changedConfigs "ams-hbase-site" c
      "hbase.regionserver.hlog.blocksize" (.pint 134217728)
    let c ← appendProperty userConfigs changedConfigs "ams-hbase-site" c
      "hbase.regionserver.maxlogs" (.pint 64)
    let c ← appendProperty userConfigs changedConfigs "ams-hbase-site" c
      "hbase.hregion.memstore.flush.size" (.pint 268435456)
    let c ← appendProperty userConfigs changedConfigs "ams-hbase-site" c
      "hbase.regionserver.global.memstore.upperLimit" (.pfloat 3 10)
    let c ← appendProperty userConfigs changedConfigs "ams-hbase-site" c
      "hbase.regionserver.global.memstore.lowerLimit" (.pfloat 25 100)
    let c ← appendProperty userConfigs changedConfigs "ams-hbase-site" c
      "phoenix.query.maxGlobalMemoryPercentage" (.pint 20)
    let c ← appendProperty userConfigs changedConfigs "ams-site" c
      "phoenix.query.maxGlobalMemoryPercentage" (.pint 30)
    appendProperty userConfigs changedConfigs "ams-hbase-site" c
      "phoenix.coprocessor.maxMetaDataCacheSize" (.pint 81920000)
  else if total_sinks_count ≥ 500 then do
    let c ← appendProperty userConfigs changedConfigs "ams-hbase-site" config
      "hbase.regionserver.handler.count" (.pint 60)
    let c ← appendProperty userConfigs changedConfigs "ams-hbase-site" c
      "hbase.regionserver.hlog.blocksize" (.pint 134217728)
    let c ← appendProperty userConfigs changedConfigs "ams-hbase-site" c
      "hbase.regionserver.maxlogs" (.pint 64)
    let c ← appendProperty userConfigs changedConfigs "ams-hbase-site" c
      "hbase.hregion.memstore.flush.size" (.pint 268435456)
    appendProperty userConfigs changedConfigs "ams-hbase-site" c
      "phoenix.coprocessor.maxMetaDataCacheSize" (.pint 40960000)
  else
    appendProperty userConfigs changedConfigs "ams-hbase-site" config
      "phoenix.coprocessor.maxMetaDataCacheSize" (.pint 20480000)

/-- Source lines 483-511 composed: the base writes followed (in
single-collector mode, `len(amsCollectorHosts) <= 1`) by the tier
writes. -/
def amsSinkTiering (userConfigs : Config) (changedConfigs : List ChangedConfig)
    (amsCollectorHostsCount total_sinks_count : Nat) (config : Config) :
    Option Config := do
  let c ← amsStorageBaseWrites userConfigs changedConfigs config
  if amsCollectorHostsCount > 1 then pure c
  else amsSingleCollectorTierWrites userConfigs changedConfigs total_sinks_count c

/-- The configuration the unconditional storage-engine writes produce from
an empty tree with no changed configurations. -/
def amsBaseCfgEx : Config :=
  [("ams-hbase-site",
     [("hfile.block.cache.size", "0.3"),
      ("hbase.hregion.memstore.flush.size", "134217728"),
      ("hbase.regionserver.global.memstore.upperLimit", "0.35"),
      ("hbase.regionserver.global.memstore.lowerLimit", "0.3")]),
   ("ams-site", [("timeline.metrics.host.aggregator.ttl", "86400")])]

/-! ## Lemmas about the map operations -/

theorem lookup_setKV_self {β : Type} (m : List (String × β)) (k : String) (v : β) :
    (setKV m k v).lookup k = some v := by
  induction m with
  | nil => simp [setKV, List.lookup]
  | cons hd tl ih =>
      obtain ⟨k0, v0⟩ := hd
      by_cases h : k0 = k
      · simp [setKV, h, List.lookup]
      · have hb : (k == k0) = false := by simpa [beq_iff_eq] using Ne.symm h
        simp only [setKV, if_neg h, List.lookup, hb]
        exact ih

theorem lookupProp_setProp_self (config : Config) (configType key value : String) :
    lookupProp (setProp config configType key value) configType key = some value := by
  induction config with
  | nil => simp [setProp, lookupProp, List.lookup, lookup_setKV_self]
  | cons hd tl ih =>
      obtain ⟨ct, props⟩ := hd
      by_cases h : ct = configType
      · simp [setProp, h, lookupProp, List.lookup, lookup_setKV_self]
      · have hb : (configType == ct) = false := by simpa [beq_iff_eq] using Ne.symm h
        simp only [setProp, if_neg h, lookupProp, List.lookup, hb]
        exact ih

/-! ## Claim theorems -/

/-- Claim C1.  Changed-config protection in the merger returned by
`putProperty`: when `(configType, key)` is listed in changed-configurations
and the live tree holds a value for it, the write stores that live value;
when the pair is not listed, the write stores `str(computedValue)`.  In
particular with `changedConfigs = [(yarn-site, yarn.scheduler.minimum-allocation-mb)]`
and live value `"999"`, the recommended tree holds `"999"` and not the
computed value `str(512) = "512"`. -/
theorem putProperty_changed_config_protection :
    (∀ (userConfigs : Config) (changedConfigs : List ChangedConfig)
       (configType : String) (config : Config) (key : String) (value : PyVal)
       (liveValue : String),
       isPropertyInChangedConfigs configType key changedConfigs = true →
       lookupProp userConfigs configType key = some liveValue →
       appendProperty userConfigs changedConfigs configType config key value =
         some (setProp config configType key liveValue)) ∧
    (∀ (userConfigs : Config) (changedConfigs : List ChangedConfig)
       (configType : String) (config : Config) (key : String) (value : PyVal),
       isPropertyInChangedConfigs configType key changedConfigs = false →
       appendProperty userConfigs changedConfigs configType config key value =
         some (setProp config configType key (pyStr value))) ∧
    (∀ (config : Config) (configType key value : String),
       lookupProp (setProp config configType key value) configType key = some value) ∧
    (appendProperty
        [("yarn-site", [("yarn.scheduler.minimum-allocation-mb", "999")])]
        [⟨"yarn-site", "yarn.scheduler.minimum-allocation-mb"⟩]
        "yarn-site" [] "yarn.scheduler.minimum-allocation-mb" (.pint 512) =
      some [("yarn-site", [("yarn.scheduler.minimum-allocation-mb", "999")])]) ∧
    ("999" ≠ pyStr (.pint 512)) := by
  refine ⟨?_, ?_, lookupProp_setProp_self, by decide, by decide⟩
  · intro userConfigs changedConfigs configType config key value liveValue hchanged hlive
    simp [appendProperty, hchanged, hlive]
  · intro userConfigs changedConfigs configType config key value hchanged
    simp [appendProperty, hchanged]

/-- Claim C1 witness: the merger applied at a concrete changed key with a
concrete live value. -/
theorem putProperty_changed_config_protection_witness :
    appendProperty
        [("yarn-site", [("yarn.scheduler.minimum-allocation-mb", "999")])]
        [⟨"yarn-site", "yarn.scheduler.minimum-allocation-mb"⟩]
        "yarn-site" [] "yarn.scheduler.minimum-allocation-mb" (.pint 512) =
      some (setProp [] "yarn-site" "yarn.scheduler.minimum-allocation-mb" "999") :=
  putProperty_changed_config_protection.1
    [("yarn-site", [("yarn.scheduler.minimum-allocation-mb", "999")])]
    [⟨"yarn-site", "yarn.scheduler.minimum-allocation-mb"⟩]
    "yarn-site" [] "yarn.scheduler.minimum-allocation-mb" (.pint 512) "999"
    (by decide) (by decide)

/-- Claim C10.  If `(configType, key)` is listed in changed-configurations
but the live configurations contain no value for it, the property writer
raises KeyError (modelled as `none`) instead of writing anything: the
changed-config branch presupposes every changed key is present live. -/
theorem putProperty_missing_changed_key_raises :
    ∀ (userConfigs : Config) (changedConfigs : List ChangedConfig)
      (configType : String) (config : Config) (key : String) (value : PyVal),
      isPropertyInChangedConfigs configType key changedConfigs = true →
      lookupProp userConfigs configType key = none →
      appendProperty userConfigs changedConfigs configType config key value = none := by
  intro userConfigs changedConfigs configType config key value hchanged hlive
  simp [appendProperty, hchanged, hlive]

/-- Claim C10 witness: concrete changed key absent from the live tree. -/
theorem putProperty_missing_changed_key_raises_witness :
    appendProperty [] [⟨"yarn-site", "yarn.scheduler.minimum-allocation-mb"⟩]
        "yarn-site" [] "yarn.scheduler.minimum-allocation-mb" (.pint 512) = none :=
  putProperty_missing_changed_key_raises [] [⟨"yarn-site", "yarn.scheduler.minimum-allocation-mb"⟩]
    "yarn-site" [] "yarn.scheduler.minimum-allocation-mb" (.pint 512)
    (by decide) (by decide)

/-- Claim C2.  Cardinality validation: for a component whose cardinality is
an "N+" string, exactly one ERROR whose message starts with "At least N" is
produced iff the assigned-host count is below N; for "N-M" iff the count is
outside [N, M]; for "ALL" iff the count differs from the cluster host
count; for an exact "N" iff the count differs from N; a satisfied spec
produces no cardinality finding.  Concretely, "3+" with 2 assigned hosts
yields exactly one ERROR containing "At least 3", and "ALL" with 5 hosts
and 4 assigned hosts yields an ERROR. -/
theorem layout_cardinality_validation :
    (∀ (hostsCount cnt : Nat) (card displayName : String) (n : Int),
       card.toList.contains '+' = true →
       pyInt? (String.mk card.toList.dropLast) = some n →
       cardinalityMessage hostsCount cnt card displayName =
         some (if (cnt : Int) < n then
           some ("At least " ++ toString n ++ " " ++ displayName ++
                 " components should be installed in cluster.")
         else none)) ∧
    (∀ (hostsCount cnt : Nat) (displayName : String),
       cardinalityMessage hostsCount cnt "ALL" displayName =
         some (if cnt ≠ hostsCount then
           some (displayName ++ " component should be installed on all hosts in cluster.")
         else none)) ∧
    (∀ (hostsCount cnt : Nat) (card displayName : String) (a b : Int)
       (s0 s1 : String) (restS : List String),
       card.toList.contains '+' = false →
       card.toList.contains '-' = true →
       (splitOnChar '-' card.toList).map String.mk = s0 :: s1 :: restS →
       pyInt? s0 = some a → pyInt? s1 = some b →
       cardinalityMessage hostsCount cnt card displayName =
         some (if (cnt : Int) > b ∨ (cnt : Int) < a then
           some ("Between " ++ toString a ++ " and " ++ toString b ++ " " ++
                 displayName ++ " components should be installed in cluster.")
         else none)) ∧
    (∀ (hostsCount cnt : Nat) (card displayName : String) (n : Int),
       card.toList.contains '+' = false →
       card.toList.contains '-' = false →
       card ≠ "ALL" →
       pyInt? card = some n →
       cardinalityMessage hostsCount cnt card displayName =
         some (if (cnt : Int) ≠ n then
           some ("Exactly " ++ toString n ++ " " ++ displayName ++
                 " components should be installed in cluster.")
         else none)) ∧
    (getComponentLayoutValidations exLayoutServices exLayoutHosts =
       some [⟨"host-component", "ERROR",
              "At least 3 DATANODE components should be installed in cluster.",
              some "DATANODE", none⟩]) ∧
    (strContainsSub
       "At least 3 DATANODE components should be installed in cluster."
       "At least 3" = true) ∧
    (getComponentLayoutValidations exAllServices exAllHosts =
       some [⟨"host-component", "ERROR",
              "HDFS_CLIENT component should be installed on all hosts in cluster.",
              some "HDFS_CLIENT", none⟩]) := by
  refine ⟨?_, ?_, ?_, ?_, by decide, by decide, by decide⟩
  · intro hostsCount cnt card displayName n hplus hparse
    have hp : '+' ∈ card.data := by simpa using hplus
    have hparse2 : pyInt? { data := card.data.dropLast } = some n := hparse
    simp [cardinalityMessage, hp, hparse2]
  · intro hostsCount cnt displayName
    simp [cardinalityMessage]
  · intro hostsCount cnt card displayName a b s0 s1 restS hplus hminus hsplit ha hb
    have hp : '+' ∉ card.data := by simpa using hplus
    have hm : '-' ∈ card.data := by simpa using hminus
    simp only [String.toList] at hsplit
    simp [cardinalityMessage, hp, hm, hsplit, ha, hb]
  · intro hostsCount cnt card displayName n hplus hminus hall hparse
    have hp : '+' ∉ card.data := by simpa using hplus
    have hm : '-' ∉ card.data := by simpa using hminus
    simp [cardinalityMessage, hp, hm, hall, hparse]

/-- Claim C2 witness: the "N+" characterization applied at cardinality
"3+" with 2 assigned hosts out of 5. -/
theorem layout_cardinality_validation_witness :
    cardinalityMessage 5 2 "3+" "DATANODE" =
      some (if (2 : Int) < 3 then
        some ("At least " ++ toString (3 : Int) ++ " " ++ "DATANODE" ++
              " components should be installed in cluster.")
      else none) :=
  layout_cardinality_validation.1 5 2 "3+" "DATANODE" 3 (by decide) (by decide)

/-- Helper for the profile invariants: both bounds hold for any arguments,
because `totalAvailableRam` is `max 512 _` and `containers` is
`max 3 _`. -/
theorem buildClusterProfile_bounds (hBaseInstalled : Bool)
    (refH refNM : Option Host) (cpu disk ram : Int)
    (components : List StackServiceComponent) :
    512 ≤ (buildClusterProfile hBaseInstalled refH refNM cpu disk ram components).totalAvailableRam ∧
    3 ≤ (buildClusterProfile hBaseInstalled refH refNM cpu disk ram components).containers := by
  constructor
  · exact le_max_left _ _
  · exact le_max_left _ _

/-- Claim C3.  For every host inventory and topology/installed-service set
for which the profile is built, the profile satisfies
`totalAvailableRam >= 512` and `containers >= 3`. -/
theorem cluster_summary_invariants :
    ∀ (servicesList : List String) (hosts : List Host)
      (components : List StackServiceComponent) (services : List ServiceEntry)
      (cluster : ClusterProfile),
      0 < hosts.length →
      getConfigurationClusterSummary servicesList hosts components services = some cluster →
      512 ≤ cluster.totalAvailableRam ∧ 3 ≤ cluster.containers := by
  intro servicesList hosts components services cluster hne heq
  cases hosts with
  | nil => simp at hne
  | cons h0 hrest =>
      simp only [getConfigurationClusterSummary] at heq
      rcases hyw : getHostsWithComponent "YARN" "NODEMANAGER" services (h0 :: hrest) with _ | nmList
      · rw [hyw] at heq; cases heq
      · rw [hyw] at heq
        cases nmList with
        | nil =>
            simp only [Option.some.injEq] at heq
            subst heq
            exact buildClusterProfile_bounds _ _ _ _ _ _ _
        | cons nm0 nmRest =>
            simp only [Option.some.injEq] at heq
            subst heq
            exact buildClusterProfile_bounds _ _ _ _ _ _ _

/-- Claim C3 witness: the invariants at a concrete one-host inventory. -/
theorem cluster_summary_invariants_witness :
    512 ≤ exSummaryProfile.totalAvailableRam ∧ 3 ≤ exSummaryProfile.containers :=
  cluster_summary_invariants [] [exSummaryHost] [] [] exSummaryProfile
    (by decide) (by decide)

/-- Claim C9.  Determinism: `getConfigurationClusterSummary` is a function
of its four inputs — equal inputs give equal profiles in every field. -/
theorem cluster_summary_deterministic :
    ∀ (servicesList1 servicesList2 : List String) (hosts1 hosts2 : List Host)
      (components1 components2 : List StackServiceComponent)
      (services1 services2 : List ServiceEntry),
      servicesList1 = servicesList2 → hosts1 = hosts2 →
      components1 = components2 → services1 = services2 →
      getConfigurationClusterSummary servicesList1 hosts1 components1 services1 =
        getConfigurationClusterSummary servicesList2 hosts2 components2 services2 := by
  intro servicesList1 servicesList2 hosts1 hosts2 components1 components2 services1 services2
    e1 e2 e3 e4
  subst e1; subst e2; subst e3; subst e4; rfl

/-- Claim C9 witness: two runs on the same concrete inputs agree. -/
theorem cluster_summary_deterministic_witness :
    getConfigurationClusterSummary ["HBASE"] [exSummaryHost] [] [] =
      getConfigurationClusterSummary ["HBASE"] [exSummaryHost] [] [] :=
  cluster_summary_deterministic ["HBASE"] ["HBASE"] [exSummaryHost] [exSummaryHost]
    [] [] [] [] rfl rfl rfl rfl

/-- Claim C4 counterexample: for the 8 GiB host (`total_mem` = 8388608 KB)
the profile's `ram` field is 8 (= total_mem / (1024*1024)), not
total_mem / 1024 = 8192 as the claim states. -/
theorem profile_ram_counterexample :
    0 < ([exSummaryHost] : List Host).length ∧
    (getConfigurationClusterSummary [] [exSummaryHost] [] []).map
        (fun c => c.ram) = some 8 ∧
    ((exSummaryHost.total_mem / 1024 : Nat) : Int) = 8192 ∧
    (getConfigurationClusterSummary [] [exSummaryHost] [] []).map (fun c => c.ram) ≠
      some ((exSummaryHost.total_mem / 1024 : Nat) : Int) := by decide

/-- Claim C4 amended: the profile's `ram` field equals the reference
host's `total_mem` (in KB) integer-divided by 1024*1024 — the reference
host's memory in gigabytes — whenever the profile is built and carries a
reference host. -/
theorem profile_ram_amended :
    ∀ (servicesList : List String) (hosts : List Host)
      (components : List StackServiceComponent) (services : List ServiceEntry)
      (cluster : ClusterProfile) (ref : Host),
      getConfigurationClusterSummary servicesList hosts components services = some cluster →
      cluster.referenceHost = some ref →
      cluster.ram = ((ref.total_mem / (1024 * 1024) : Nat) : Int) := by
  intro servicesList hosts components services cluster ref heq href
  cases hosts with
  | nil =>
      simp only [getConfigurationClusterSummary, Option.some.injEq] at heq
      subst heq
      simp [buildClusterProfile] at href
  | cons h0 hrest =>
      simp only [getConfigurationClusterSummary] at heq
      rcases hyw : getHostsWithComponent "YARN" "NODEMANAGER" services (h0 :: hrest) with _ | nmList
      · rw [hyw] at heq; cases heq
      · rw [hyw] at heq
        cases nmList with
        | nil =>
            simp only [Option.some.injEq] at heq
            subst heq
            simp only [buildClusterProfile] at href ⊢
            have : h0 = ref := by simpa using href
            subst this
            rfl
        | cons nm0 nmRest =>
            simp only [Option.some.injEq] at heq
            subst heq
            simp only [buildClusterProfile] at href ⊢
            have : (nm0 :: nmRest).foldl
                (fun acc h => if h.total_mem < acc.total_mem then h else acc) nm0 = ref := by
              simpa using href
            rw [this]

/-- Claim C4 amended witness: the amended relation at the concrete 8 GiB
host. -/
theorem profile_ram_amended_witness :
    exSummaryProfile.ram = ((exSummaryHost.total_mem / (1024 * 1024) : Nat) : Int) :=
  profile_ram_amended [] [exSummaryHost] [] [] exSummaryProfile exSummaryHost
    (by decide) (by decide)

/-- Claim C8.  For a property the below-recommended validator checks (one
present in the recommended defaults): an absent live property yields the
ERROR "Value should be set"; a malformed (non-numeric) live value yields
the ERROR "Value should be integer"; and each property is validated
independently — the validator's result depends only on that property's own
live value, so one malformed value never suppresses the findings of the
remaining properties, as the concrete hadoop-env run shows. -/
theorem validator_numeric_error_isolation :
    (∀ (properties recommendedDefaults : PropMap)
       (propertyName recommendedRaw : String),
       recommendedDefaults.lookup propertyName = some recommendedRaw →
       properties.lookup propertyName = none →
       validatorLessThenDefaultValue properties recommendedDefaults propertyName =
         some (getErrorItem "Value should be set")) ∧
    (∀ (properties recommendedDefaults : PropMap)
       (propertyName recommendedRaw valueRaw : String),
       recommendedDefaults.lookup propertyName = some recommendedRaw →
       properties.lookup propertyName = some valueRaw →
       to_number valueRaw = none →
       validatorLessThenDefaultValue properties recommendedDefaults propertyName =
         some (getErrorItem "Value should be integer")) ∧
    (∀ (properties1 properties2 recommendedDefaults : PropMap) (propertyName : String),
       properties1.lookup propertyName = properties2.lookup propertyName →
       validatorLessThenDefaultValue properties1 recommendedDefaults propertyName =
         validatorLessThenDefaultValue properties2 recommendedDefaults propertyName) ∧
    (validateHDFSConfigurationsEnv
        [("namenode_heapsize", "garbage"), ("namenode_opt_newsize", "64"),
         ("namenode_opt_maxnewsize", "256")]
        [("namenode_heapsize", "1024"), ("namenode_opt_newsize", "128"),
         ("namenode_opt_maxnewsize", "256")] =
      [⟨"configuration", "ERROR", "Value should be integer",
        "hadoop-env", "namenode_heapsize"⟩,
       ⟨"configuration", "WARN", "Value is less than the recommended default of 128",
        "hadoop-env", "namenode_opt_newsize"⟩]) := by
  refine ⟨?_, ?_, ?_, by decide⟩
  · intro properties recommendedDefaults propertyName recommendedRaw hrec hlive
    simp [validatorLessThenDefaultValue, hrec, hlive]
  · intro properties recommendedDefaults propertyName recommendedRaw valueRaw hrec hlive hnum
    simp [validatorLessThenDefaultValue, hrec, hlive, hnum]
  · intro properties1 properties2 recommendedDefaults propertyName h
    simp only [validatorLessThenDefaultValue]
    rw [h]

/-- Claim C8 witness: the absent-property ERROR at a concrete property. -/
theorem validator_numeric_error_isolation_witness :
    validatorLessThenDefaultValue [] [("namenode_heapsize", "1024")] "namenode_heapsize" =
      some (getErrorItem "Value should be set") :=
  validator_numeric_error_isolation.1 [] [("namenode_heapsize", "1024")]
    "namenode_heapsize" "1024" (by decide) (by decide)

/-- Claim C5.  Heap-flag validation: with both the live and the recommended
value present, (1) a recommended value with valid -Xmx syntax and a live
value without it give the ERROR "Invalid value format"; (2) when both have
valid syntax and both sizes normalize to bytes (units b/k/m/g/t/p read
case-insensitively, `b` the default), the result is a WARN exactly when
the live byte value is strictly below the recommended byte value, and no
finding otherwise; (3) a recommended value without -Xmx syntax gives no
finding.  Concretely: live "-Xmx512m" against recommended "-Xmx1024m" is a
WARN, and live "512" against recommended "-Xmx1g" is an ERROR. -/
theorem heapflag_validation :
    (∀ (properties recommendedDefaults : PropMap)
       (propertyName value defaultValue : String),
       properties.lookup propertyName = some value →
       recommendedDefaults.lookup propertyName = some defaultValue →
       checkXmxValueFormat value = false →
       checkXmxValueFormat defaultValue = true →
       validateXmxValue properties recommendedDefaults propertyName =
         some (some (getErrorItem "Invalid value format"))) ∧
    (∀ (properties recommendedDefaults : PropMap)
       (propertyName value defaultValue valueXmx defaultValueXmx : String)
       (valueInt defaultValueInt : Int),
       properties.lookup propertyName = some value →
       recommendedDefaults.lookup propertyName = some defaultValue →
       checkXmxValueFormat value = true →
       checkXmxValueFormat defaultValue = true →
       getXmxSize value = some valueXmx →
       getXmxSize defaultValue = some defaultValueXmx →
       formatXmxSizeToBytes valueXmx = some valueInt →
       formatXmxSizeToBytes defaultValueXmx = some defaultValueInt →
       validateXmxValue properties recommendedDefaults propertyName =
         some (if valueInt < defaultValueInt then
           some (getWarnItem
             ("Value is less than the recommended default of -Xmx" ++ defaultValueXmx))
         else none)) ∧
    (∀ (properties recommendedDefaults : PropMap)
       (propertyName value defaultValue : String),
       properties.lookup propertyName = some value →
       recommendedDefaults.lookup propertyName = some defaultValue →
       checkXmxValueFormat defaultValue = false →
       validateXmxValue properties recommendedDefaults propertyName = some none) ∧
    (validateXmxValue [("p", "-Xmx512m")] [("p", "-Xmx1024m")] "p" =
       some (some (getWarnItem "Value is less than the recommended default of -Xmx1024m"))) ∧
    (validateXmxValue [("p", "512")] [("p", "-Xmx1g")] "p" =
       some (some (getErrorItem "Invalid value format"))) ∧
    (formatXmxSizeToBytes "512m" = some 536870912) ∧
    (formatXmxSizeToBytes "512" = some 512) ∧
    (getXmxSize "-Xmx2G" = some "2g") ∧
    (formatXmxSizeToBytes "2g" = some 2147483648) := by
  refine ⟨?_, ?_, ?_, by decide, by decide, by decide, by decide, by decide, by decide⟩
  · intro properties recommendedDefaults propertyName value defaultValue
      hlive hrec hcv hcd
    simp [validateXmxValue, hlive, hrec, hcv, hcd]
  · intro properties recommendedDefaults propertyName value defaultValue
      valueXmx defaultValueXmx valueInt defaultValueInt
      hlive hrec hcv hcd hsv hsd hbv hbd
    simp [validateXmxValue, hlive, hrec, hcv, hcd, hsv, hsd, hbv, hbd]
  · intro properties recommendedDefaults propertyName value defaultValue
      hlive hrec hcd
    simp [validateXmxValue, hlive, hrec, hcd]

/-- Claim C5 witness: the ERROR branch at live "512" against recommended
"-Xmx1g". -/
theorem heapflag_validation_witness :
    validateXmxValue [("q", "512")] [("q", "-Xmx1g")] "q" =
      some (some (getErrorItem "Invalid value format")) :=
  heapflag_validation.1 [("q", "512")] [("q", "-Xmx1g")] "q" "512" "-Xmx1g"
    (by decide) (by decide) (by decide) (by decide)

/-- `optValGt` is asymmetric. -/
theorem optValGt_asymm (a b : Option Int) (h : optValGt a b = true) :
    optValGt b a = false := by
  cases a with
  | none => cases b <;> simp [optValGt] at h
  | some x =>
      cases b with
      | none => simp [optValGt]
      | some y =>
          simp only [optValGt, decide_eq_true_eq] at h
          simp only [optValGt, decide_eq_false_iff_not]
          omega

/-- Inserting into a descending chain keeps it a descending chain. -/
theorem chain_insDesc (x : String × Option Int) (l : List (String × Option Int))
    (hl : l.Chain' descOrder) : (insDesc x l).Chain' descOrder := by
  induction l with
  | nil => simp [insDesc]
  | cons h t ih =>
      by_cases hx : optValGt x.2 h.2 = true
      · simp only [insDesc]
        rw [if_pos hx, List.chain'_cons]
        exact ⟨optValGt_asymm _ _ hx, hl⟩
      · have hxf : optValGt x.2 h.2 = false := by simpa using hx
        simp only [insDesc]
        rw [if_neg hx, List.chain'_cons']
        refine ⟨?_, ih hl.tail⟩
        intro y hy
        cases t with
        | nil =>
            simp [insDesc] at hy
            subst hy
            exact hxf
        | cons h2 t2 =>
            by_cases hx2 : optValGt x.2 h2.2 = true
            · simp only [insDesc] at hy
              rw [if_pos hx2] at hy
              simp only [List.head?_cons, Option.mem_def, Option.some.injEq] at hy
              subst hy
              exact hxf
            · simp only [insDesc] at hy
              rw [if_neg hx2] at hy
              simp only [List.head?_cons, Option.mem_def, Option.some.injEq] at hy
              subst hy
              exact (List.chain'_cons.mp hl).1

/-- The value-descending sort produces a descending chain. -/
theorem sortByValueDesc_sorted (l : List (String × Option Int)) :
    (sortByValueDesc l).Chain' descOrder := by
  have main : ∀ (l2 acc : List (String × Option Int)), acc.Chain' descOrder →
      (l2.foldl (fun acc x => insDesc x acc) acc).Chain' descOrder := by
    intro l2
    induction l2 with
    | nil => intro acc h; simpa using h
    | cons x xs ih => intro acc h; exact ih _ (chain_insDesc x acc h)
  exact main l [] (by simp)

/-- Members of an insertion come from the inserted element or the list. -/
theorem mem_insDesc {y x : String × Option Int} {l : List (String × Option Int)}
    (h : y ∈ insDesc x l) : y = x ∨ y ∈ l := by
  induction l with
  | nil =>
      simp [insDesc] at h
      exact Or.inl h
  | cons hd tl ih =>
      by_cases hx : optValGt x.2 hd.2 = true
      · simp only [insDesc] at h
        rw [if_pos hx] at h
        rcases List.mem_cons.mp h with h1 | h2
        · exact Or.inl h1
        · exact Or.inr h2
      · simp only [insDesc] at h
        rw [if_neg hx] at h
        rcases List.mem_cons.mp h with h1 | h2
        · exact Or.inr (by simp [h1])
        · rcases ih h2 with h3 | h4
          · exact Or.inl h3
          · exact Or.inr (List.mem_cons_of_mem _ h4)

/-- Members of the sorted list come from the input list. -/
theorem mem_sortByValueDesc {y : String × Option Int} {l : List (String × Option Int)}
    (h : y ∈ sortByValueDesc l) : y ∈ l := by
  have main : ∀ (l2 acc : List (String × Option Int)),
      y ∈ l2.foldl (fun acc x => insDesc x acc) acc → y ∈ acc ∨ y ∈ l2 := by
    intro l2
    induction l2 with
    | nil => intro acc h2; exact Or.inl h2
    | cons x xs ih =>
        intro acc h2
        rcases ih (insDesc x acc) h2 with h3 | h4
        · rcases mem_insDesc h3 with h5 | h6
          · exact Or.inr (by simp [h5])
          · exact Or.inl h6
        · exact Or.inr (List.mem_cons_of_mem _ h4)
  rcases main l [] h with h1 | h2
  · simp at h1
  · exact h2

/-- Members of a dict after assignment come from the assignment or the
dict. -/
theorem mem_setKV {β : Type} {y : String × β} {m : List (String × β)}
    {k : String} {v : β} (h : y ∈ setKV m k v) : y = (k, v) ∨ y ∈ m := by
  induction m with
  | nil =>
      simp [setKV] at h
      exact Or.inl h
  | cons hd tl ih =>
      obtain ⟨k0, v0⟩ := hd
      by_cases hk : k0 = k
      · simp only [setKV, if_pos hk] at h
        rcases List.mem_cons.mp h with h1 | h2
        · exact Or.inl h1
        · exact Or.inr (List.mem_cons_of_mem _ h2)
      · simp only [setKV, if_neg hk] at h
        rcases List.mem_cons.mp h with h1 | h2
        · exact Or.inr (by simp [h1])
        · rcases ih h2 with h3 | h4
          · exact Or.inl h3
          · exact Or.inr (List.mem_cons_of_mem _ h4)

/-- Every entry of the mount-points dict records a non-excluded disk_info
mount. -/
theorem mem_buildMountPointsDict {y : String × Option Int}
    {disk_info : List DiskEntry} (h : y ∈ buildMountPointsDict disk_info) :
    ∃ m ∈ disk_info, m.mountpoint = y.1 ∧ undesirableMountPoint m = false := by
  have main : ∀ (ds : List DiskEntry) (acc : List (String × Option Int)),
      y ∈ ds.foldl (fun d m => if undesirableMountPoint m then d
                    else setKV d m.mountpoint (to_number m.available)) acc →
      y ∈ acc ∨ ∃ m ∈ ds, m.mountpoint = y.1 ∧ undesirableMountPoint m = false := by
    intro ds
    induction ds with
    | nil => intro acc h2; exact Or.inl h2
    | cons d rest ih =>
        intro acc h2
        rw [List.foldl_cons] at h2
        by_cases hu : undesirableMountPoint d = true
        · rw [if_pos hu] at h2
          rcases ih acc h2 with h3 | ⟨m, hm, he, hw⟩
          · exact Or.inl h3
          · exact Or.inr ⟨m, List.mem_cons_of_mem _ hm, he, hw⟩
        · have huf : undesirableMountPoint d = false := by simpa using hu
          rw [if_neg hu] at h2
          rcases ih _ h2 with h3 | ⟨m, hm, he, hw⟩
          · rcases mem_setKV h3 with h5 | h6
            · exact Or.inr ⟨d, by simp, by simp [h5], huf⟩
            · exact Or.inl h6
          · exact Or.inr ⟨m, List.mem_cons_of_mem _ hm, he, hw⟩
  rcases main disk_info [] h with h1 | h2
  · simp at h1
  · exact h2

/-- Claim C6.  Mount-point ranking: the result is exactly the non-excluded
mounts sorted by available space descending with "/" appended; "/" is the
last element; every ranked mount point (all but the trailing "/") comes
from a disk_info record passing the exclusion test (root/boot/tmp/home,
virtual filesystems, zero available space); the ranked prefix is a
descending chain in available space; and the example layout
root=100GB, /data=500GB, /boot=50GB yields exactly ["/data", "/"]. -/
theorem mount_point_ranking :
    (∀ disk_info : List DiskEntry,
       getPreferredMountPoints disk_info =
         (sortByValueDesc (buildMountPointsDict disk_info)).map Prod.fst ++ ["/"]) ∧
    (∀ disk_info : List DiskEntry,
       (getPreferredMountPoints disk_info).getLast? = some "/") ∧
    (∀ (disk_info : List DiskEntry) (mp : String),
       mp ∈ (sortByValueDesc (buildMountPointsDict disk_info)).map Prod.fst →
       keptMountComesFromDisk disk_info mp = true) ∧
    (∀ disk_info : List DiskEntry,
       (sortByValueDesc (buildMountPointsDict disk_info)).Chain' descOrder) ∧
    (getPreferredMountPoints exMountDisks = ["/data", "/"]) := by
  refine ⟨fun _ => rfl, ?_, ?_, fun d => sortByValueDesc_sorted _, by decide⟩
  · intro d
    show (List.map Prod.fst _ ++ ["/"]).getLast? = some "/"
    simp
  · intro d mp hmp
    rcases List.mem_map.mp hmp with ⟨y, hy, he⟩
    rcases mem_buildMountPointsDict (mem_sortByValueDesc hy) with ⟨m, hm, h1, h2⟩
    simp only [keptMountComesFromDisk, List.any_eq_true]
    exact ⟨m, hm, by simp [h1, he, h2]⟩

/-- Claim C6 witness: the exclusion property applied at the example layout
for the ranked mount "/data". -/
theorem mount_point_ranking_witness :
    keptMountComesFromDisk exMountDisks "/data" = true :=
  mount_point_ranking.2.2.1 exMountDisks "/data" (by decide)

/-- Above the 2000-sink threshold the tier writes do not depend on the
exact sink count. -/
theorem amsTier_ge2000 (userConfigs : Config) (changedConfigs : List ChangedConfig)
    (n : Nat) (config : Config) (h : 2000 ≤ n) :
    amsSingleCollectorTierWrites userConfigs changedConfigs n config =
      amsSingleCollectorTierWrites userConfigs changedConfigs 2000 config := by
  simp only [amsSingleCollectorTierWrites]
  rw [if_pos h, if_pos (by norm_num)]

/-- Between 500 and 1999 sinks the tier writes do not depend on the exact
sink count. -/
theorem amsTier_mid (userConfigs : Config) (changedConfigs : List ChangedConfig)
    (n : Nat) (config : Config) (h1 : n < 2000) (h2 : 500 ≤ n) :
    amsSingleCollectorTierWrites userConfigs changedConfigs n config =
      amsSingleCollectorTierWrites userConfigs changedConfigs 500 config := by
  simp only [amsSingleCollectorTierWrites]
  rw [if_neg (by omega), if_pos h2, if_neg (by norm_num), if_pos (by norm_num)]

/-- Below 500 sinks the tier step performs exactly the single
metadata-cache-size write. -/
theorem amsTier_low (userConfigs : Config) (changedConfigs : List ChangedConfig)
    (n : Nat) (config : Config) (h : n < 500) :
    amsSingleCollectorTierWrites userConfigs changedConfigs n config =
      appendProperty userConfigs changedConfigs "ams-hbase-site" config
        "phoenix.coprocessor.maxMetaDataCacheSize" (.pint 20480000) := by
  simp only [amsSingleCollectorTierWrites]
  rw [if_neg (by omega), if_neg (by omega)]

/-- Claim C7.  Single-collector sink tiering: the storage-engine tuning
bundle depends on the total sink count only through the thresholds 2000
and 500; with 2500 sinks the tier-3 bundle is written (handler count "60",
memstore flush size "268435456", memstore upperLimit "0.3" and lowerLimit
"0.25", the latter three overriding the unconditional defaults); with 300
sinks the tier step performs exactly the metadata-cache-size default write
("20480000"), so only that value is added to the base writes. -/
theorem ams_sink_tiering :
    (∀ n : Nat, 2000 ≤ n →
       amsSinkTiering [] [] 1 n [] = amsSinkTiering [] [] 1 2500 []) ∧
    (∀ n : Nat, 500 ≤ n → n < 2000 →
       amsSinkTiering [] [] 1 n [] = amsSinkTiering [] [] 1 500 []) ∧
    (∀ n : Nat, n < 500 →
       amsSinkTiering [] [] 1 n [] = amsSinkTiering [] [] 1 300 []) ∧
    ((amsSinkTiering [] [] 1 2500 []).bind
       (fun c => lookupProp c "ams-hbase-site" "hbase.regionserver.handler.count") =
       some "60") ∧
    ((amsSinkTiering [] [] 1 2500 []).bind
       (fun c => lookupProp c "ams-hbase-site" "hbase.hregion.memstore.flush.size") =
       some "268435456") ∧
    ((amsSinkTiering [] [] 1 2500 []).bind
       (fun c => lookupProp c "ams-hbase-site" "hbase.regionserver.global.memstore.upperLimit") =
       some "0.3") ∧
    ((amsSinkTiering [] [] 1 2500 []).bind
       (fun c => lookupProp c "ams-hbase-site" "hbase.regionserver.global.memstore.lowerLimit") =
       some "0.25") ∧
    (∀ (userConfigs : Config) (changedConfigs : List ChangedConfig)
       (n : Nat) (config : Config), n < 500 →
       amsSingleCollectorTierWrites userConfigs changedConfigs n config =
         appendProperty userConfigs changedConfigs "ams-hbase-site" config
           "phoenix.coprocessor.maxMetaDataCacheSize" (.pint 20480000)) ∧
    (amsSinkTiering [] [] 1 300 [] =
       some [("ams-hbase-site",
              [("hfile.block.cache.size", "0.3"),
               ("hbase.hregion.memstore.flush.size", "134217728"),
               ("hbase.regionserver.global.memstore.upperLimit", "0.35"),
               ("hbase.regionserver.global.memstore.lowerLimit", "0.3"),
               ("phoenix.coprocessor.maxMetaDataCacheSize", "20480000")]),
             ("ams-site", [("timeline.metrics.host.aggregator.ttl", "86400")])]) := by
  refine ⟨?_, ?_, ?_, by decide, by decide, by decide, by decide, amsTier_low, by decide⟩
  · intro n h
    have key : amsSingleCollectorTierWrites [] [] n amsBaseCfgEx =
        amsSingleCollectorTierWrites [] [] 2500 amsBaseCfgEx := by
      rw [amsTier_ge2000 [] [] n _ h, amsTier_ge2000 [] [] 2500 _ (by norm_num)]
    calc amsSinkTiering [] [] 1 n [] =
        amsSingleCollectorTierWrites [] [] n amsBaseCfgEx := rfl
      _ = amsSingleCollectorTierWrites [] [] 2500 amsBaseCfgEx := key
      _ = amsSinkTiering [] [] 1 2500 [] := rfl
  · intro n h1 h2
    have key : amsSingleCollectorTierWrites [] [] n amsBaseCfgEx =
        amsSingleCollectorTierWrites [] [] 500 amsBaseCfgEx := by
      rw [amsTier_mid [] [] n _ h2 h1, amsTier_mid [] [] 500 _ (by norm_num) (by norm_num)]
    calc amsSinkTiering [] [] 1 n [] =
        amsSingleCollectorTierWrites [] [] n amsBaseCfgEx := rfl
      _ = amsSingleCollectorTierWrites [] [] 500 amsBaseCfgEx := key
      _ = amsSinkTiering [] [] 1 500 [] := rfl
  · intro n h
    have key : amsSingleCollectorTierWrites [] [] n amsBaseCfgEx =
        amsSingleCollectorTierWrites [] [] 300 amsBaseCfgEx := by
      rw [amsTier_low [] [] n _ h, amsTier_low [] [] 300 _ (by norm_num)]
    calc amsSinkTiering [] [] 1 n [] =
        amsSingleCollectorTierWrites [] [] n amsBaseCfgEx := rfl
      _ = amsSingleCollectorTierWrites [] [] 300 amsBaseCfgEx := key
      _ = amsSinkTiering [] [] 1 300 [] := rfl

/-- Claim C7 witness: the below-threshold tier step at 300 sinks on the
base configuration. -/
theorem ams_sink_tiering_witness :
    amsSingleCollectorTierWrites [] [] 300 amsBaseCfgEx =
      appendProperty [] [] "ams-hbase-site" amsBaseCfgEx
        "phoenix.coprocessor.maxMetaDataCacheSize" (.pint 20480000) :=
  ams_sink_tiering.2.2.2.2.2.2.2.1 [] [] 300 amsBaseCfgEx (by decide)
